import Mathlib

/-!
Shallow embedding of the snapshot-diff and history-reconstruction engine of
the adopets-monitoring repository (`compare_snapshots.py`, `animal_history.py`,
`crosscheck_removals.py`, `email_adopets_changes.py`), together with theorems
settling the specification's claims about it.

Conventions of the embedding:
* Python `str` is Lean `String`; a dict field that may be absent or `null`
  is `Option String` (absence and `null` are conflated, since `dict.get(k)`
  returns `None` in both cases).
* The `foster` field is read in the source only through `bool(...)`, so it is
  embedded directly as `Bool`.
* JSON array elements that are not objects are represented by the
  `SnapVal.nonObj` constructor carrying their printed form.
* Fallible Python code (an uncaught `AttributeError` in `load_snapshot`)
  is embedded as an `Option`-returning function, `none` meaning the raised
  exception.
* `datetime.now()` in `compare_snapshots` is embedded as an explicit `now`
  argument threaded into the diff artifact.
* Snapshot-file timestamps (parsed upstream from the filename pattern
  `YYYY-MM-DDTHH-MM-SS`) are embedded as `Nat` values already attached to
  each file; files whose names lack a parseable timestamp are excluded
  before this point by `snapshot_files`.
-/

namespace Adopets

/-- ASCII whitespace, as recognised by Python's `str.split()` / `str.strip()`
(the unicode whitespace classes are irrelevant to the data of this system). -/
def isWs (c : Char) : Bool :=
  c = ' ' || c = '\t' || c = '\n' || c = '\r' || c = '\x0B' || c = '\x0C'

/-- Python `s.split()`: split on whitespace runs, dropping empty pieces. -/
def pySplit (s : String) : List String :=
  ((s.toList.splitOnP isWs).filter (fun w => w ≠ [])).map (fun w => String.mk w)

/-- Python `" ".join(s.split())`, the whitespace-collapsing normalizer used
for bios throughout the system. -/
def joinSplit (s : String) : String :=
  String.intercalate " " (pySplit s)

/-- Embeds `compare_snapshots.normalize_html`: `None` becomes `""`, otherwise the
text is whitespace-normalized. -/
def normalize_html (text : Option String) : String :=
  match text with
  | none => ""
  | some s => joinSplit s

/-- Embeds `animal_history.normalize_text`: `" ".join((s or "").split())`. -/
def normalize_text (s : Option String) : String :=
  joinSplit (s.getD "")

/-- Embeds `animal_history.as_str`: `"" if x is None else str(x)` (our model keeps
string-valued fields, so `str` is the identity). -/
def as_str (x : Option String) : String :=
  x.getD ""

/-- Python `s.strip()` on ASCII whitespace. -/
def pyStrip (s : String) : String :=
  String.mk (((s.toList.dropWhile isWs).reverse.dropWhile isWs).reverse)

/-- One normalized animal record: exactly the fields the differ and the
history reconstructor read from a snapshot element. -/
structure Record where
  uuid : Option String := none
  animal_id : Option String := none
  name : Option String := none
  species : Option String := none
  sex : Option String := none
  age_key : Option String := none
  size_key : Option String := none
  breed_primary_name : Option String := none
  status : Option String := none
  location : Option String := none
  foster : Bool := false
  kennel_number : Option String := none
  picture : Option String := none
  characteristic_keys : Option (List String) := none
  characteristic_names : Option (List String) := none
  description_html : Option String := none
deriving DecidableEq

/-- One element of a snapshot's JSON array: either an object (a record) or a
non-object value (string, number, ...), carrying its printed form. -/
inductive SnapVal where
  | obj (r : Record) : SnapVal
  | nonObj (v : String) : SnapVal
deriving DecidableEq

/-- Python-dict insertion: replace the value at an existing key in place,
otherwise append at the end (CPython 3.7+ dict semantics). -/
def dictSet (m : List (String × Record)) (k : String) (v : Record) :
    List (String × Record) :=
  match m with
  | [] => [(k, v)]
  | (k', v') :: t => if k' = k then (k, v) :: t else (k', v') :: dictSet t k v

/-- The id key under which `compare_snapshots.load_snapshot` stores a record:
`rec.get("animal_id")`, skipped when falsy (`None` or `""`). -/
def idKey (r : Record) : Option String :=
  match r.animal_id with
  | none => none
  | some s => if s = "" then none else some s

/-- One iteration of the `for rec in records` loop of
`compare_snapshots.load_snapshot`. A non-object array element makes
`rec.get("animal_id")` raise `AttributeError`, so the step fails (`none`). -/
def loadStep (m : List (String × Record)) (v : SnapVal) :
    Option (List (String × Record)) :=
  match v with
  | .nonObj _ => none
  | .obj r =>
    match idKey r with
    | none => some m
    | some k => some (dictSet m k r)

/-- Embeds `compare_snapshots.load_snapshot` (after `json.load`): builds the
id → record dict; `none` models the uncaught `AttributeError`. -/
def load_snapshot (vals : List SnapVal) : Option (List (String × Record)) :=
  vals.foldlM loadStep []

/-- Embeds `animal_history.load_snapshot_records` (after `json.load` of an array):
`[r for r in data if isinstance(r, dict)]` — non-object elements are dropped. -/
def load_snapshot_records (vals : List SnapVal) : List Record :=
  vals.filterMap (fun v =>
    match v with
    | .obj r => some r
    | .nonObj _ => none)

/-- The loop body of `animal_history.find_animal_in_snapshot`: the first
record whose stripped `animal_id` equals the requested id. -/
def find_animal_in_records (records : List Record) (animal_id : String) :
    Option Record :=
  records.find? (fun r => pyStrip (as_str r.animal_id) = animal_id)

/-- Key list of an id → record dict (`dict.keys()`; unique by construction). -/
def idsOf (m : List (String × Record)) : List String :=
  m.map Prod.fst

/-- Total lookup in an id → record dict. The source indexes `old_data[pid]`
only at keys of the dict, where Python's `[]` cannot raise, so the default
record is never reached on those calls. -/
def dictGet (m : List (String × Record)) (k : String) : Record :=
  (m.lookup k).getD {}

/-- Code-point lexicographic comparison of character lists: Python's
string order. (Structurally recursive so the kernel can evaluate it.) -/
def charListLe : List Char → List Char → Bool
  | [], _ => true
  | _ :: _, [] => false
  | a :: as, b :: bs =>
    if a.toNat < b.toNat then true
    else if b.toNat < a.toNat then false
    else charListLe as bs

/-- Python's `≤` on strings (code-point lexicographic). -/
def strLe (a b : String) : Bool :=
  charListLe a.toList b.toList

/-- Python `sorted(strings)`: a stable comparison sort on the code-point
lexicographic order, modelled by (stable) insertion sort. -/
def pySorted (l : List String) : List String :=
  l.insertionSort (fun a b => strLe a b = true)

/-- Python `sorted(set(strings))`: the sorted list of distinct elements. -/
def sortedSet (l : List String) : List String :=
  pySorted l.dedup

/-- Embeds `sorted(new_ids - old_ids)` of `compare_snapshots`. -/
def addedIds (old_data new_data : List (String × Record)) : List String :=
  sortedSet ((idsOf new_data).filter (fun k => decide (k ∉ idsOf old_data)))

/-- Embeds `sorted(old_ids - new_ids)` of `compare_snapshots`. -/
def removedIds (old_data new_data : List (String × Record)) : List String :=
  sortedSet ((idsOf old_data).filter (fun k => decide (k ∉ idsOf new_data)))

/-- Embeds `sorted(old_ids & new_ids)` of `compare_snapshots`. -/
def commonIds (old_data new_data : List (String × Record)) : List String :=
  sortedSet ((idsOf old_data).filter (fun k => decide (k ∈ idsOf new_data)))

/-- Embeds `sorted(new_keys - old_keys)` for the characteristic-key sets. -/
def charAdded (old new : Record) : List String :=
  sortedSet ((new.characteristic_keys.getD []).filter
    (fun k => decide (k ∉ old.characteristic_keys.getD [])))

/-- Embeds `sorted(old_keys - new_keys)` for the characteristic-key sets. -/
def charRemoved (old new : Record) : List String :=
  sortedSet ((old.characteristic_keys.getD []).filter
    (fun k => decide (k ∉ new.characteristic_keys.getD [])))

/-- Embeds `description_changed = old_norm != new_norm` in `compare_snapshots`. -/
def descriptionChanged (old new : Record) : Bool :=
  normalize_html old.description_html != normalize_html new.description_html

/-- Embeds `location_changed = (old_loc != new_loc) or (old_foster != new_foster)`. -/
def locationChanged (old new : Record) : Bool :=
  (old.location != new.location) || (old.foster != new.foster)

/-- The `location_change_type` classification of `compare_snapshots`
(`None` when no location/foster change was detected). -/
def locationChangeType (old new : Record) : Option String :=
  if locationChanged old new then
    if !old.foster && new.foster then some "went_to_foster"
    else if old.foster && !new.foster then some "returned_from_foster"
    else if old.location != new.location then some "kennel_move"
    else some "other"
  else none

/-- The fixed projection used for `animals_added` / `animals_removed`. -/
structure AnimalInfo where
  uuid : Option String
  animal_id : Option String
  name : Option String
  species : Option String
  sex : Option String
  age_key : Option String
  size_key : Option String
  breed_primary_name : Option String
  status : Option String
  location : Option String
deriving DecidableEq

def animalInfoOf (r : Record) : AnimalInfo :=
  ⟨r.uuid, r.animal_id, r.name, r.species, r.sex, r.age_key, r.size_key,
   r.breed_primary_name, r.status, r.location⟩

/-- One entry of `animals_changed`, with the fields written by the source. -/
structure ChangedEntry where
  uuid : String
  animal_id : Option String
  name : Option String
  species : Option String
  sex : Option String
  age_key : Option String
  size_key : Option String
  breed_primary_name : Option String
  status_old : Option String
  status_new : Option String
  location_old : Option String
  location_new : Option String
  foster_old : Bool
  foster_new : Bool
  location_changed : Bool
  location_change_type : Option String
  characteristics_added : List String
  characteristics_removed : List String
  description_changed : Bool
  description_old : Option String
  description_new : Option String
deriving DecidableEq

/-- Embeds `new.get(k, old.get(k))`: fall back to the old record's value when the
new one has none (absence and `null` are conflated in this model). -/
def getOr (a b : Option String) : Option String :=
  match a with
  | some v => some v
  | none => b

/-- The per-common-id body of the changed-animals loop in
`compare_snapshots`: `Some` entry when
`char_added or char_removed or description_changed or location_changed`,
else nothing is appended. -/
def changedEntry (pid : String) (old new : Record) : Option ChangedEntry :=
  let ca := charAdded old new
  let cr := charRemoved old new
  let dc := descriptionChanged old new
  let lc := locationChanged old new
  if !ca.isEmpty || !cr.isEmpty || dc || lc then
    some
      { uuid := pid
        animal_id := getOr new.animal_id old.animal_id
        name := getOr new.name old.name
        species := getOr new.species old.species
        sex := getOr new.sex old.sex
        age_key := getOr new.age_key old.age_key
        size_key := getOr new.size_key old.size_key
        breed_primary_name := getOr new.breed_primary_name old.breed_primary_name
        status_old := old.status
        status_new := new.status
        location_old := old.location
        location_new := new.location
        foster_old := old.foster
        foster_new := new.foster
        location_changed := lc
        location_change_type := locationChangeType old new
        characteristics_added := ca
        characteristics_removed := cr
        description_changed := dc
        description_old := old.description_html
        description_new := new.description_html }
  else none

/-- The `animals_added` list of the diff. -/
def animalsAddedOf (old_data new_data : List (String × Record)) :
    List AnimalInfo :=
  (addedIds old_data new_data).map (fun pid => animalInfoOf (dictGet new_data pid))

/-- The `animals_removed` list of the diff. -/
def animalsRemovedOf (old_data new_data : List (String × Record)) :
    List AnimalInfo :=
  (removedIds old_data new_data).map (fun pid => animalInfoOf (dictGet old_data pid))

/-- The `animals_changed` list of the diff. -/
def animalsChangedOf (old_data new_data : List (String × Record)) :
    List ChangedEntry :=
  (commonIds old_data new_data).filterMap
    (fun pid => changedEntry pid (dictGet old_data pid) (dictGet new_data pid))

/-- The `summary` object of the diff artifact. -/
structure Summary where
  total_old : Nat
  total_new : Nat
  animals_added : Nat
  animals_removed : Nat
  animals_changed : Nat
deriving DecidableEq

/-- The diff artifact written by `compare_snapshots` (`json.dump` serializes
exactly these fields, in this insertion order). -/
structure Diff where
  generated_at : String
  old_snapshot : String
  new_snapshot : String
  summary : Summary
  animals_added : List AnimalInfo
  animals_removed : List AnimalInfo
  animals_changed : List ChangedEntry
deriving DecidableEq

/-- Embeds `compare_snapshots.compare_snapshots`, with `datetime.now().isoformat()`
threaded in as the explicit argument `now` and the two file paths as strings.
`none` models the `AttributeError` escaping from a failed `load_snapshot`. -/
def compare_snapshots (now old_path new_path : String)
    (old_vals new_vals : List SnapVal) : Option Diff :=
  match load_snapshot old_vals, load_snapshot new_vals with
  | some old_data, some new_data =>
    some
      { generated_at := now
        old_snapshot := old_path
        new_snapshot := new_path
        summary :=
          ⟨(idsOf old_data).length, (idsOf new_data).length,
           (animalsAddedOf old_data new_data).length,
           (animalsRemovedOf old_data new_data).length,
           (animalsChangedOf old_data new_data).length⟩
        animals_added := animalsAddedOf old_data new_data
        animals_removed := animalsRemovedOf old_data new_data
        animals_changed := animalsChangedOf old_data new_data }
  | _, _ => none

/-! ## History reconstructor (`animal_history.py`) -/

/-- Embeds `animal_history.safe_list`: a non-list value becomes `[]`. -/
def safe_list (x : Option (List String)) : List String :=
  x.getD []

/-- Embeds `animal_history.SnapshotHit` (the `path` field is irrelevant to the
claims; `dt` is the timestamp parsed from the filename). -/
structure SnapshotHit where
  dt : Nat
  record : Record
deriving DecidableEq

/-- Embeds `animal_history.pick_fields`: the projection applied to each hit record
(`safe_list` normalizes the two trait lists). -/
def pick_fields (r : Record) : Record :=
  { r with
    characteristic_keys := some (safe_list r.characteristic_keys)
    characteristic_names := some (safe_list r.characteristic_names) }

/-- Embeds `animal_history.latest_nonempty_bio`: scan the hits in reverse order and
return the timestamp and normalized bio of the first hit whose normalized
bio is non-empty. -/
def latest_nonempty_bio (hits : List SnapshotHit) : Option (Nat × String) :=
  (hits.reverse.find?
      (fun hit => normalize_text hit.record.description_html ≠ "")).map
    (fun hit => (hit.dt, normalize_text hit.record.description_html))

/-- One snapshot file as seen by `animal_history`: its timestamp (already
parsed from the `YYYY-MM-DDTHH-MM-SS` filename pattern by
`parse_snapshot_dt`; files without a parseable timestamp were dropped by
`snapshot_files`) and its JSON array content. -/
structure SnapFile where
  dt : Nat
  vals : List SnapVal
deriving DecidableEq

/-- Embeds `snaps.sort(key=lambda p: parse_snapshot_dt(p))` in `snapshot_files`:
a stable sort of the discovered files by timestamp. -/
def sortFiles (files : List SnapFile) : List SnapFile :=
  files.insertionSort (fun a b => a.dt ≤ b.dt)

/-- Embeds `animal_history.find_animal_in_snapshot` on one file. -/
def find_animal_in_snapshot (f : SnapFile) (animal_id : String) :
    Option Record :=
  find_animal_in_records (load_snapshot_records f.vals) animal_id

/-- The hit-collection loop of `animal_history.main`: scan the sorted files,
keep those containing the animal, projected through `pick_fields`. -/
def animalHits (files : List SnapFile) (animal_id : String) :
    List SnapshotHit :=
  (sortFiles files).filterMap
    (fun f => (find_animal_in_snapshot f animal_id).map
      (fun r => ⟨f.dt, pick_fields r⟩))

/-- The timestamps of the `history[]` entries produced by `render_json`
(one entry per hit, in hit order). -/
def historyDts (files : List SnapFile) (animal_id : String) : List Nat :=
  (animalHits files animal_id).map (fun h => h.dt)

/-! ## Outcome enrichment (`crosscheck_removals.py`) -/

/-- One row of the outcomes dataframe passed to `attach_outcome_status`:
its join key and its (possibly missing) outcome-status string. -/
structure OutcomeRow where
  animal_id : String
  outcome_status : Option String
deriving DecidableEq

/-- The grouping step of `attach_outcome_status`:
`outcomes_df.groupby("animal_id")["outcome_status"].apply(lambda s: sorted(set(s.dropna().tolist())))`
— the sorted distinct non-null outcome statuses of one animal id. -/
def groupedTypes (rows : List OutcomeRow) (id : String) : List String :=
  pySorted (((rows.filter (fun r => r.animal_id == id)).filterMap
    (fun r => r.outcome_status)).dedup)

/-- The per-removed-record body of `attach_outcome_status`: the
`outcome_status` value attached to a removed record carrying `animal_id`.
The `match` mirrors the source's `if not types / len(types) == 1 / else`. -/
def attach_outcome_status (rows : List OutcomeRow) (animal_id : Option String) :
    Option String :=
  let id := pyStrip (as_str animal_id)
  match groupedTypes rows id with
  | [] => none
  | [t] => some t
  | ts => some (String.intercalate " / " ts)

/-! ## Bio fuzzy delta (`email_adopets_changes.py`) -/

/-- The character-multiset intersection size computed by difflib's
`quick_ratio`: for each distinct character, the smaller of its two
occurrence counts (characters missing from either side contribute 0). -/
def matchCount (a b : List Char) : Nat :=
  (a.toFinset ∪ b.toFinset).sum (fun c => min (a.count c) (b.count c))

/-- difflib's `_calculate_ratio(matches, length)` applied to `quick_ratio`'s
matches: `2 * M / (len(a) + len(b))`, and `1.0` on two empty strings. -/
def quickRatioVal (a b : List Char) : ℚ :=
  if a.length + b.length = 0 then 1
  else 2 * (matchCount a b : ℚ) / ((a.length + b.length : Nat) : ℚ)

/-- Embeds `sm.quick_ratio() or sm.ratio()` in `compute_bio_delta`. The fallback
fires only when `quick_ratio()` is `0.0`, i.e. the strings share no
character at all; every matching block of `ratio()` is then empty, so
`ratio()` is also `0.0` and the expression's value is `quick_ratio()`'s in
both branches. -/
def ratioUsed (a b : List Char) : ℚ :=
  if quickRatioVal a b = 0 then 0 else quickRatioVal a b

/-- Python's float `round` at a fixed position: round half to even. -/
def roundHalfEven (y : ℚ) : ℤ :=
  let f := y.floor
  if y - f < 1 / 2 then f
  else if y - f > 1 / 2 then f + 1
  else if f % 2 = 0 then f else f + 1

/-- Python `round(x, 1)`. -/
def pyRound1 (x : ℚ) : ℚ :=
  (roundHalfEven (10 * x) : ℚ) / 10

/-- Embeds `email_adopets_changes.compute_bio_delta`: approximate percentage
difference between two bios, with sub-0.1% deltas suppressed. -/
def compute_bio_delta (old_desc new_desc : Option String) : ℚ :=
  let old_text := joinSplit (old_desc.getD "")
  let new_text := joinSplit (new_desc.getD "")
  if old_text = "" ∧ new_text = "" then 0
  else
    let ratio := ratioUsed old_text.toList new_text.toList
    let delta := (1 - ratio) * 100
    if delta < 1 / 10 then 0 else pyRound1 delta

/-! ## Helper lemmas -/

theorem charListLe_total : ∀ as bs : List Char,
    charListLe as bs = true ∨ charListLe bs as = true := by
  intro as
  induction as with
  | nil => intro bs; left; rfl
  | cons a as ih =>
    intro bs
    cases bs with
    | nil => right; rfl
    | cons b bs =>
      rcases Nat.lt_trichotomy a.toNat b.toNat with h | h | h
      · left; simp [charListLe, h]
      · rcases ih bs with h2 | h2 <;>
          simp [charListLe, h, Nat.lt_irrefl, h2]
      · right; simp [charListLe, h]

theorem charListLe_trans : ∀ as bs cs : List Char,
    charListLe as bs = true → charListLe bs cs = true →
    charListLe as cs = true := by
  intro as
  induction as with
  | nil => intro bs cs _ _; rfl
  | cons a as ih =>
    intro bs cs hab hbc
    cases bs with
    | nil => simp [charListLe] at hab
    | cons b bs =>
      cases cs with
      | nil => simp [charListLe] at hbc
      | cons c cs =>
        simp only [charListLe] at hab hbc ⊢
        rcases Nat.lt_trichotomy a.toNat b.toNat with h1 | h1 | h1 <;>
          rcases Nat.lt_trichotomy b.toNat c.toNat with h2 | h2 | h2
        · rw [if_pos (by omega)]
        · rw [if_pos (by omega)]
        · rw [if_neg (by omega), if_pos (by omega)] at hbc
          exact absurd hbc (by simp)
        · rw [if_pos (by omega)]
        · rw [if_neg (by omega), if_neg (by omega)] at hab
          rw [if_neg (by omega), if_neg (by omega)] at hbc
          rw [if_neg (by omega), if_neg (by omega)]
          exact ih bs cs hab hbc
        · rw [if_neg (by omega), if_pos (by omega)] at hbc
          exact absurd hbc (by simp)
        · rw [if_neg (by omega), if_pos (by omega)] at hab
          exact absurd hab (by simp)
        · rw [if_neg (by omega), if_pos (by omega)] at hab
          exact absurd hab (by simp)
        · rw [if_neg (by omega), if_pos (by omega)] at hab
          exact absurd hab (by simp)

theorem strLe_total (a b : String) :
    strLe a b = true ∨ strLe b a = true :=
  charListLe_total a.toList b.toList

theorem strLe_trans {a b c : String} (hab : strLe a b = true)
    (hbc : strLe b c = true) : strLe a c = true :=
  charListLe_trans a.toList b.toList c.toList hab hbc

theorem mem_pySorted {a : String} {l : List String} :
    a ∈ pySorted l ↔ a ∈ l := by
  unfold pySorted
  exact List.mem_insertionSort _

theorem mem_sortedSet {a : String} {l : List String} :
    a ∈ sortedSet l ↔ a ∈ l := by
  unfold sortedSet
  rw [mem_pySorted]
  exact List.mem_dedup

theorem pySorted_sorted (l : List String) :
    List.Pairwise (fun a b => strLe a b = true) (pySorted l) := by
  haveI : IsTotal String (fun a b => strLe a b = true) := ⟨strLe_total⟩
  haveI : IsTrans String (fun a b => strLe a b = true) :=
    ⟨fun _ _ _ => strLe_trans⟩
  exact List.sorted_insertionSort _ l

theorem pySorted_nodup {l : List String} (h : l.Nodup) :
    (pySorted l).Nodup := by
  unfold pySorted
  exact ((List.perm_insertionSort _ l).nodup_iff).mpr h

theorem mem_addedIds {od nd : List (String × Record)} {pid : String} :
    pid ∈ addedIds od nd ↔ pid ∈ idsOf nd ∧ pid ∉ idsOf od := by
  unfold addedIds
  rw [mem_sortedSet, List.mem_filter]
  simp

theorem mem_removedIds {od nd : List (String × Record)} {pid : String} :
    pid ∈ removedIds od nd ↔ pid ∈ idsOf od ∧ pid ∉ idsOf nd := by
  unfold removedIds
  rw [mem_sortedSet, List.mem_filter]
  simp

theorem mem_commonIds {od nd : List (String × Record)} {pid : String} :
    pid ∈ commonIds od nd ↔ pid ∈ idsOf od ∧ pid ∈ idsOf nd := by
  unfold commonIds
  rw [mem_sortedSet, List.mem_filter]
  simp

theorem sortedSet_eq_nil {l : List String} : sortedSet l = [] ↔ l = [] := by
  unfold sortedSet pySorted
  constructor
  · intro h
    have hp := List.perm_insertionSort (fun a b => strLe a b = true) l.dedup
    have hlen := hp.length_eq
    rw [h] at hlen
    exact (List.dedup_eq_nil l).mp (List.length_eq_zero.mp hlen.symm)
  · intro h
    rw [h]
    rfl

theorem charAdded_ne_nil_iff (o n : Record) :
    charAdded o n ≠ [] ↔
    (n.characteristic_keys.getD []).toFinset \
      (o.characteristic_keys.getD []).toFinset ≠ ∅ := by
  unfold charAdded
  rw [ne_eq, sortedSet_eq_nil, List.filter_eq_nil_iff, ne_eq,
    Finset.eq_empty_iff_forall_not_mem]
  push_neg
  simp [Finset.mem_sdiff, List.mem_toFinset]

theorem charRemoved_ne_nil_iff (o n : Record) :
    charRemoved o n ≠ [] ↔
    (o.characteristic_keys.getD []).toFinset \
      (n.characteristic_keys.getD []).toFinset ≠ ∅ := by
  unfold charRemoved
  rw [ne_eq, sortedSet_eq_nil, List.filter_eq_nil_iff, ne_eq,
    Finset.eq_empty_iff_forall_not_mem]
  push_neg
  simp [Finset.mem_sdiff, List.mem_toFinset]

theorem changedCond_iff (o n : Record) :
    (!(charAdded o n).isEmpty || !(charRemoved o n).isEmpty
      || descriptionChanged o n || locationChanged o n) = true ↔
    ((n.characteristic_keys.getD []).toFinset \
        (o.characteristic_keys.getD []).toFinset ≠ ∅
      ∨ (o.characteristic_keys.getD []).toFinset \
          (n.characteristic_keys.getD []).toFinset ≠ ∅
      ∨ normalize_html o.description_html ≠ normalize_html n.description_html
      ∨ o.location ≠ n.location
      ∨ o.foster ≠ n.foster) := by
  have hne : ∀ l : List String, ((!l.isEmpty) = true) ↔ l ≠ [] := by
    intro l
    cases l <;> simp
  simp only [Bool.or_eq_true, hne, descriptionChanged, locationChanged,
    bne_iff_ne, charAdded_ne_nil_iff, charRemoved_ne_nil_iff, or_assoc]

theorem changedEntry_uuid {pid : String} {o n : Record} {e : ChangedEntry}
    (h : changedEntry pid o n = some e) : e.uuid = pid := by
  unfold changedEntry at h
  dsimp only at h
  split at h
  · cases h; rfl
  · cases h

theorem changedEntry_isSome (pid : String) (o n : Record) :
    (changedEntry pid o n).isSome =
      (!(charAdded o n).isEmpty || !(charRemoved o n).isEmpty
        || descriptionChanged o n || locationChanged o n) := by
  unfold changedEntry
  dsimp only
  split <;> simp_all

/-! ## Claim theorems -/

/-- Follows the spec's words, not the source (§4.1 sub-diff 1 with the
tracked scalar fields of §3): the scalar sub-diff between two records of a
common identity is non-empty when any tracked scalar field differs. -/
def specScalarDelta (o n : Record) : Bool :=
  (o.name != n.name) || (o.species != n.species) || (o.sex != n.sex)
    || (o.age_key != n.age_key) || (o.size_key != n.size_key)
    || (o.breed_primary_name != n.breed_primary_name)
    || (o.status != n.status) || (o.location != n.location)
    || (o.kennel_number != n.kennel_number)

def c1old : Record :=
  { animal_id := some "1", name := some "Rex", status := some "AVAILABLE" }

def c1new : Record :=
  { animal_id := some "1", name := some "Rex", status := some "ADOPTED" }

/-- C1 counterexample: identity `"1"` is common to both snapshots and its
two records differ in the tracked scalar field `status` (so the spec's
scalar sub-diff is non-empty), yet `animals_changed` is empty: the source
unions only the trait, bio and location sub-diffs. -/
theorem adopets_C1_counterexample :
    specScalarDelta c1old c1new = true
    ∧ "1" ∈ commonIds [("1", c1old)] [("1", c1new)]
    ∧ animalsChangedOf [("1", c1old)] [("1", c1new)] = [] := by
  decide

/-- C1 (amended): an identity appears in `animals_changed` iff it is common
to both snapshots and at least one of the three sub-diffs the source
computes — trait set delta (either direction), whitespace-normalized bio
delta, location/foster delta — is non-empty. A difference confined to the
tracked scalar fields does not, by itself, put an identity there. -/
theorem adopets_C1_changed_membership
    (od nd : List (String × Record)) (pid : String) :
    pid ∈ (animalsChangedOf od nd).map ChangedEntry.uuid ↔
    (pid ∈ commonIds od nd ∧
      (((dictGet nd pid).characteristic_keys.getD []).toFinset \
          ((dictGet od pid).characteristic_keys.getD []).toFinset ≠ ∅
        ∨ ((dictGet od pid).characteristic_keys.getD []).toFinset \
            ((dictGet nd pid).characteristic_keys.getD []).toFinset ≠ ∅
        ∨ normalize_html (dictGet od pid).description_html
            ≠ normalize_html (dictGet nd pid).description_html
        ∨ (dictGet od pid).location ≠ (dictGet nd pid).location
        ∨ (dictGet od pid).foster ≠ (dictGet nd pid).foster)) := by
  unfold animalsChangedOf
  rw [List.mem_map]
  constructor
  · rintro ⟨e, he, huuid⟩
    rw [List.mem_filterMap] at he
    obtain ⟨q, hq, hsome⟩ := he
    have hpq : q = pid := by rw [← huuid, changedEntry_uuid hsome]
    subst hpq
    refine ⟨hq, ?_⟩
    have hs : (changedEntry q (dictGet od q) (dictGet nd q)).isSome = true := by
      rw [hsome]
      rfl
    rw [changedEntry_isSome] at hs
    exact (changedCond_iff _ _).mp hs
  · rintro ⟨hc, hdisj⟩
    have hs : (changedEntry pid (dictGet od pid) (dictGet nd pid)).isSome = true := by
      rw [changedEntry_isSome]
      exact (changedCond_iff _ _).mpr hdisj
    obtain ⟨e, he⟩ := Option.isSome_iff_exists.mp hs
    exact ⟨e, List.mem_filterMap.mpr ⟨pid, hc, he⟩, changedEntry_uuid he⟩

def c1wold : Record :=
  { animal_id := some "1", characteristic_keys := some ["friendly"] }

def c1wnew : Record :=
  { animal_id := some "1", characteristic_keys := some ["friendly", "shy"] }

/-- C1 witness: a concrete trait-only change does land the identity in
`animals_changed`. -/
theorem adopets_C1_witness :
    "1" ∈ (animalsChangedOf [("1", c1wold)] [("1", c1wnew)]).map
      ChangedEntry.uuid :=
  (adopets_C1_changed_membership [("1", c1wold)] [("1", c1wnew)] "1").mpr
    (by decide)

/-- Every field of the diff artifact except `generated_at`. -/
def dropGenerated (d : Diff) :
    String × String × Summary × List AnimalInfo × List AnimalInfo ×
      List ChangedEntry :=
  (d.old_snapshot, d.new_snapshot, d.summary, d.animals_added,
   d.animals_removed, d.animals_changed)

/-- C2 counterexample: for a fixed pair of snapshots, two runs of the diff
at different wall-clock times produce different artifacts — `generated_at`
records `datetime.now()`, so the serialized outputs are not byte-identical. -/
theorem adopets_C2_counterexample :
    compare_snapshots "2025-12-04T23:22:46" "old.json" "new.json" [] []
      ≠ compare_snapshots "2025-12-04T23:22:47" "old.json" "new.json" [] [] := by
  decide

/-- C2 (amended): two runs of the diff over a fixed pair of snapshots agree
on every field of the artifact except `generated_at`, which is exactly the
wall-clock time of the run. -/
theorem adopets_C2_determinism (t₁ t₂ op np : String)
    (ov nv : List SnapVal) :
    (compare_snapshots t₁ op np ov nv).map dropGenerated
      = (compare_snapshots t₂ op np ov nv).map dropGenerated
    ∧ ∀ d : Diff, compare_snapshots t₁ op np ov nv = some d →
        d.generated_at = t₁ := by
  constructor
  · unfold compare_snapshots
    cases load_snapshot ov <;> cases load_snapshot nv <;> simp [dropGenerated]
  · intro d hd
    unfold compare_snapshots at hd
    split at hd
    · cases hd
      rfl
    · cases hd

/-- C2 witness: the amended statement at a concrete pair of runs. -/
theorem adopets_C2_witness :
    (compare_snapshots "t1" "a" "b" [] []).map dropGenerated
      = (compare_snapshots "t2" "a" "b" [] []).map dropGenerated
    ∧ (({ generated_at := "t1", old_snapshot := "a", new_snapshot := "b",
          summary := ⟨0, 0, 0, 0, 0⟩, animals_added := [],
          animals_removed := [], animals_changed := [] } : Diff).generated_at
        = "t1") :=
  ⟨(adopets_C2_determinism "t1" "t2" "a" "b" [] []).1,
   (adopets_C2_determinism "t1" "t2" "a" "b" [] []).2 _ (by decide)⟩

theorem foldlM_loadStep_none {s : String} :
    ∀ (vals : List SnapVal) (m : List (String × Record)),
      SnapVal.nonObj s ∈ vals → vals.foldlM loadStep m = none := by
  intro vals
  induction vals with
  | nil =>
    intro m h
    cases h
  | cons v t ih =>
    intro m h
    rw [List.foldlM_cons]
    cases v with
    | nonObj u => rfl
    | obj r =>
      have ht : SnapVal.nonObj s ∈ t := by
        rcases List.mem_cons.mp h with h1 | h1
        · exact absurd h1 (by simp)
        · exact h1
      cases hk : idKey r with
      | none => simpa [loadStep, hk] using ih m ht
      | some k => simpa [loadStep, hk] using ih (dictSet m k r) ht

def c4rec : Record :=
  { animal_id := some "1", name := some "Rex" }

/-- C4 counterexample: on a snapshot array containing a non-object element,
the pairwise differ's loader fails (`rec.get` raises `AttributeError`)
instead of discarding the element, while the history reconstructor's loader
does discard it. -/
theorem adopets_C4_counterexample :
    load_snapshot [SnapVal.nonObj "not-an-object", SnapVal.obj c4rec] = none
    ∧ load_snapshot_records [SnapVal.nonObj "not-an-object", SnapVal.obj c4rec]
        = [c4rec] := by
  decide

/-- C4 (amended): only the history reconstructor's loader discards
non-object array elements; the pairwise differ's loader fails on any
snapshot array containing one. -/
theorem adopets_C4_loader_divergence (l₁ l₂ : List SnapVal) (s : String)
    (vals : List SnapVal) :
    load_snapshot_records (l₁ ++ SnapVal.nonObj s :: l₂)
      = load_snapshot_records (l₁ ++ l₂)
    ∧ (SnapVal.nonObj s ∈ vals → load_snapshot vals = none) := by
  constructor
  · unfold load_snapshot_records
    simp [List.filterMap_append, List.filterMap_cons]
  · intro h
    exact foldlM_loadStep_none vals [] h

/-- C4 witness: the amended statement at a concrete snapshot array. -/
theorem adopets_C4_witness :
    load_snapshot_records ([SnapVal.obj c4rec] ++ SnapVal.nonObj "x" :: [])
      = load_snapshot_records ([SnapVal.obj c4rec] ++ [])
    ∧ load_snapshot [SnapVal.nonObj "x"] = none :=
  ⟨(adopets_C4_loader_divergence [SnapVal.obj c4rec] [] "x"
      [SnapVal.nonObj "x"]).1,
   (adopets_C4_loader_divergence [SnapVal.obj c4rec] [] "x"
      [SnapVal.nonObj "x"]).2 (by decide)⟩

/-- C5: the restore pack's bio scans the hits in reverse chronological
order and returns the first non-empty normalized bio — in particular, for
hits `[S1(bio=""), S2(bio="A"), S3(bio="")]` it returns S2's bio — and when
every hit's normalized bio is empty it returns nothing. -/
theorem adopets_C5_latest_nonempty_bio :
    (∀ h1 h2 h3 : SnapshotHit,
      normalize_text h1.record.description_html = "" →
      normalize_text h3.record.description_html = "" →
      normalize_text h2.record.description_html ≠ "" →
      latest_nonempty_bio [h1, h2, h3]
        = some (h2.dt, normalize_text h2.record.description_html))
    ∧ ∀ hits : List SnapshotHit,
        (∀ h ∈ hits, normalize_text h.record.description_html = "") →
        latest_nonempty_bio hits = none := by
  constructor
  · intro h1 h2 h3 e1 e3 ne2
    unfold latest_nonempty_bio
    simp [List.find?, e3, ne2]
  · intro hits hall
    unfold latest_nonempty_bio
    have hnone : ∀ x ∈ hits.reverse,
        ¬(decide (normalize_text x.record.description_html ≠ "") = true) := by
      intro x hx
      have hx2 := hall x (List.mem_reverse.mp hx)
      simp [hx2]
    rw [List.find?_eq_none.mpr hnone]
    rfl

def c5h1 : SnapshotHit := ⟨1, { description_html := some "   " }⟩

def c5h2 : SnapshotHit := ⟨2, { description_html := some " A " }⟩

def c5h3 : SnapshotHit := ⟨3, { description_html := none }⟩

/-- C5 witness: the scenario at concrete hits (S2's bio is returned; a
chain of empty bios yields nothing). -/
theorem adopets_C5_witness :
    latest_nonempty_bio [c5h1, c5h2, c5h3]
      = some (c5h2.dt, normalize_text c5h2.record.description_html)
    ∧ latest_nonempty_bio [c5h1] = none :=
  ⟨adopets_C5_latest_nonempty_bio.1 c5h1 c5h2 c5h3 (by decide) (by decide)
      (by decide),
   adopets_C5_latest_nonempty_bio.2 [c5h1] (by decide)⟩

theorem hits_dts_sublist (l : List SnapFile) (id : String) :
    ((l.filterMap (fun f => (find_animal_in_snapshot f id).map
        (fun r => (⟨f.dt, pick_fields r⟩ : SnapshotHit)))).map
      (fun h => h.dt)).Sublist (l.map (fun f => f.dt)) := by
  induction l with
  | nil => simp
  | cons f t ih =>
    cases hf : find_animal_in_snapshot f id with
    | none =>
      simp only [List.filterMap_cons, hf]
      exact ih.cons _
    | some r =>
      simp only [List.filterMap_cons, hf, Option.map_some, List.map_cons]
      exact ih.cons₂ _

/-- C6 (amended): the `history[]` timestamps are always non-decreasing, and
they are strictly increasing whenever the snapshot files carry pairwise
distinct timestamps (two files can embed the same timestamp in their
names, in which case consecutive history entries share a timestamp). -/
theorem adopets_C6_monotonic (files : List SnapFile) (id : String) :
    List.Pairwise (· ≤ ·) (historyDts files id)
    ∧ ((files.map (fun f => f.dt)).Nodup →
        List.Pairwise (· < ·) (historyDts files id)) := by
  have hsorted : List.Pairwise (fun a b : SnapFile => a.dt ≤ b.dt)
      (sortFiles files) := by
    haveI : IsTotal SnapFile (fun a b => a.dt ≤ b.dt) :=
      ⟨fun a b => Nat.le_total _ _⟩
    haveI : IsTrans SnapFile (fun a b => a.dt ≤ b.dt) :=
      ⟨fun _ _ _ => Nat.le_trans⟩
    exact List.sorted_insertionSort _ files
  have hmap : List.Pairwise (· ≤ ·) ((sortFiles files).map (fun f => f.dt)) :=
    List.pairwise_map.mpr hsorted
  have hsub := hits_dts_sublist (sortFiles files) id
  have hle : List.Pairwise (· ≤ ·) (historyDts files id) := by
    unfold historyDts animalHits
    exact List.Pairwise.sublist hsub hmap
  refine ⟨hle, fun hnd => ?_⟩
  have hperm : ((sortFiles files).map (fun f => f.dt)).Perm
      (files.map (fun f => f.dt)) :=
    (List.perm_insertionSort _ files).map _
  have hnd2 : ((sortFiles files).map (fun f => f.dt)).Nodup :=
    (hperm.nodup_iff).mpr hnd
  have hndts : (historyDts files id).Nodup := by
    unfold historyDts animalHits
    exact List.Nodup.sublist hsub hnd2
  exact (hle.and hndts).imp (fun hab => lt_of_le_of_ne hab.1 hab.2)

def c6rec : Record := { animal_id := some "7" }

def c6f1 : SnapFile := ⟨5, [SnapVal.obj c6rec]⟩

def c6f2 : SnapFile := ⟨5, [SnapVal.obj c6rec]⟩

/-- C6 counterexample: two snapshot files embedding the same timestamp in
their names both contain the animal, so the history carries two entries
with equal timestamps — not strictly increasing. -/
theorem adopets_C6_counterexample :
    historyDts [c6f1, c6f2] "7" = [5, 5]
    ∧ ¬ List.Pairwise (· < ·) (historyDts [c6f1, c6f2] "7") := by
  decide

def c6g1 : SnapFile := ⟨1, [SnapVal.obj c6rec]⟩

def c6g2 : SnapFile := ⟨2, [SnapVal.obj c6rec]⟩

/-- C6 witness: strictly increasing history timestamps at concrete files
with distinct timestamps. -/
theorem adopets_C6_witness :
    List.Pairwise (· < ·) (historyDts [c6g1, c6g2] "7") :=
  (adopets_C6_monotonic [c6g1, c6g2] "7").2 (by decide)

theorem matchCount_comm (a b : List Char) : matchCount a b = matchCount b a := by
  unfold matchCount
  rw [Finset.union_comm]
  exact Finset.sum_congr rfl (fun c _ => min_comm _ _)

theorem quickRatioVal_comm (a b : List Char) :
    quickRatioVal a b = quickRatioVal b a := by
  unfold quickRatioVal
  rw [matchCount_comm]
  simp only [Nat.add_comm a.length b.length]

theorem ratioUsed_comm (a b : List Char) : ratioUsed a b = ratioUsed b a := by
  unfold ratioUsed
  rw [quickRatioVal_comm]

/-- C7: the approximate percentage bio dissimilarity is symmetric,
including the one-decimal rounding and the sub-0.1% suppression. -/
theorem adopets_C7_bio_delta_symm (X Y : Option String) :
    compute_bio_delta X Y = compute_bio_delta Y X := by
  unfold compute_bio_delta
  dsimp only
  rw [ratioUsed_comm]
  by_cases h1 : joinSplit (X.getD "") = "" <;>
    by_cases h2 : joinSplit (Y.getD "") = "" <;>
      simp [h1, h2]

/-- The fold step of `load_snapshot` on an object element. -/
def dictStep (m : List (String × Record)) (r : Record) :
    List (String × Record) :=
  match idKey r with
  | none => m
  | some k => dictSet m k r

theorem load_snapshot_objs : ∀ (recs : List Record) (m : List (String × Record)),
    (recs.map SnapVal.obj).foldlM loadStep m = some (recs.foldl dictStep m) := by
  intro recs
  induction recs with
  | nil => intro m; rfl
  | cons r t ih =>
    intro m
    rw [List.map_cons, List.foldlM_cons, List.foldl_cons]
    have hstep : loadStep m (SnapVal.obj r) = some (dictStep m r) := by
      cases hk : idKey r <;> simp [loadStep, dictStep, hk]
    rw [hstep]
    simpa using ih (dictStep m r)

theorem lookup_dictSet_self (m : List (String × Record)) (k : String)
    (v : Record) : (dictSet m k v).lookup k = some v := by
  induction m with
  | nil => simp [dictSet, List.lookup]
  | cons p t ih =>
    obtain ⟨k', v'⟩ := p
    by_cases h : k' = k
    · simp [dictSet, h, List.lookup]
    · have hb : (k == k') = false := beq_eq_false_iff_ne.mpr
        (fun hh => h hh.symm)
      simp [dictSet, h, List.lookup, hb, ih]

theorem lookup_dictSet_ne (m : List (String × Record)) (k : String)
    (v : Record) {q : String} (h : q ≠ k) :
    (dictSet m k v).lookup q = m.lookup q := by
  induction m with
  | nil =>
    have hb : (q == k) = false := beq_eq_false_iff_ne.mpr h
    simp [dictSet, List.lookup, hb]
  | cons p t ih =>
    obtain ⟨k', v'⟩ := p
    by_cases hk : k' = k
    · subst hk
      have hb : (q == k') = false := beq_eq_false_iff_ne.mpr h
      simp [dictSet, List.lookup, hb]
    · by_cases hq : q = k'
      · subst hq
        simp [dictSet, hk, List.lookup]
      · have hb : (q == k') = false := beq_eq_false_iff_ne.mpr hq
        simp [dictSet, hk, List.lookup, hb, ih]

theorem buildDict_lookup : ∀ (recs : List Record) (k : String),
    (recs.foldl dictStep []).lookup k
      = (recs.filter (fun r => idKey r == some k)).getLast? := by
  intro recs k
  induction recs using List.reverseRecOn with
  | nil => rfl
  | append_singleton t r ih =>
    rw [List.foldl_append, List.foldl_cons, List.foldl_nil, List.filter_append]
    cases hk : idKey r with
    | none =>
      have hfr : List.filter (fun r => idKey r == some k) [r] = [] := by
        simp [hk]
      rw [hfr, List.append_nil]
      simpa [dictStep, hk] using ih
    | some k2 =>
      by_cases hkk : k2 = k
      · subst hkk
        have hfr : List.filter (fun r => idKey r == some k2) [r] = [r] := by
          simp [hk]
        rw [hfr, List.getLast?_concat]
        simp [dictStep, hk, lookup_dictSet_self]
      · have hfr : List.filter (fun r => idKey r == some k) [r] = [] := by
          simp [hk, hkk]
        rw [hfr, List.append_nil]
        have hne : k ≠ k2 := fun hh => hkk hh.symm
        simp only [dictStep, hk]
        rw [lookup_dictSet_ne _ _ _ hne]
        exact ih

theorem find?_eq_head?_filter {α : Type} (p : α → Bool) :
    ∀ l : List α, l.find? p = (l.filter p).head? := by
  intro l
  induction l with
  | nil => rfl
  | cons a t ih =>
    cases hpa : p a
    · rw [List.find?_cons_of_neg _ (by simp [hpa]),
        List.filter_cons_of_neg (by simp [hpa])]
      exact ih
    · rw [List.find?_cons_of_pos _ hpa, List.filter_cons_of_pos hpa,
        List.head?_cons]

def c8r1 : Record := { animal_id := some "1", name := some "A" }

def c8r2 : Record := { animal_id := some "1", name := some "B" }

/-- C8 counterexample: on a snapshot with two records of identity `"1"`,
the pairwise differ's loader keeps the last occurrence while the history
reconstructor returns the first — the two components do not both resolve
duplicates last-occurrence-wins. -/
theorem adopets_C8_counterexample :
    (load_snapshot [SnapVal.obj c8r1, SnapVal.obj c8r2]).map
        (fun m => dictGet m "1") = some c8r2
    ∧ find_animal_in_records [c8r1, c8r2] "1" = some c8r1
    ∧ c8r1 ≠ c8r2 := by
  decide

/-- C8 (amended): neither component fails on duplicate identities, but they
resolve them differently: the pairwise differ's id → record map holds the
last record of the snapshot with a given (truthy) id, while the history
reconstructor's scan returns the first record whose stripped id matches. -/
theorem adopets_C8_duplicate_resolution (recs : List Record)
    (k id : String) :
    (load_snapshot (recs.map SnapVal.obj)).map (fun m => m.lookup k)
      = some ((recs.filter (fun r => idKey r == some k)).getLast?)
    ∧ find_animal_in_records recs id
      = (recs.filter
          (fun r => decide (pyStrip (as_str r.animal_id) = id))).head? := by
  constructor
  · unfold load_snapshot
    rw [load_snapshot_objs recs []]
    rw [Option.map_some']
    rw [buildDict_lookup recs k]
  · exact find?_eq_head?_filter _ recs

theorem intercalate_single (t : String) :
    String.intercalate " / " [t] = t := by
  simp [String.intercalate, String.intercalate.go]

/-- C9: the outcome status attached to a removed record is `None` exactly
when the feed has no matching rows; otherwise it is the distinct observed
outcome types joined by `" / "` in sorted order — the grouped type list is
sorted, duplicate-free, and contains precisely the non-null statuses of
the rows whose id matches the record's stripped id. -/
theorem adopets_C9_outcome_join (rows : List OutcomeRow)
    (aid : Option String) :
    (attach_outcome_status rows aid = none
      ↔ groupedTypes rows (pyStrip (as_str aid)) = [])
    ∧ (groupedTypes rows (pyStrip (as_str aid)) ≠ [] →
        attach_outcome_status rows aid
          = some (String.intercalate " / "
              (groupedTypes rows (pyStrip (as_str aid)))))
    ∧ List.Pairwise (fun a b => strLe a b = true)
        (groupedTypes rows (pyStrip (as_str aid)))
    ∧ (groupedTypes rows (pyStrip (as_str aid))).Nodup
    ∧ ∀ t, t ∈ groupedTypes rows (pyStrip (as_str aid)) ↔
        ∃ r ∈ rows, r.animal_id = pyStrip (as_str aid)
          ∧ r.outcome_status = some t := by
  refine ⟨?_, ?_, pySorted_sorted _, pySorted_nodup (List.nodup_dedup _), ?_⟩
  · unfold attach_outcome_status
    dsimp only
    rcases hg : groupedTypes rows (pyStrip (as_str aid)) with _ | ⟨t, ts⟩
    · simp [hg]
    · rcases ts with _ | ⟨t2, ts⟩ <;> simp [hg]
  · intro hne
    unfold attach_outcome_status
    dsimp only
    rcases hg : groupedTypes rows (pyStrip (as_str aid)) with _ | ⟨t, ts⟩
    · exact absurd hg hne
    · rcases ts with _ | ⟨t2, ts⟩
      · simp [hg, intercalate_single]
      · simp [hg]
  · intro t
    unfold groupedTypes
    rw [mem_pySorted, List.mem_dedup, List.mem_filterMap]
    constructor
    · rintro ⟨r, hr, hs⟩
      rw [List.mem_filter] at hr
      exact ⟨r, hr.1, by simpa using hr.2, hs⟩
    · rintro ⟨r, hr, hid, hs⟩
      exact ⟨r, List.mem_filter.mpr ⟨hr, by simpa using hid⟩, hs⟩

def c9r1 : OutcomeRow := ⟨"1", some "Transferred"⟩

def c9r2 : OutcomeRow := ⟨"1", some "Adopted"⟩

/-- C9 witness: a removed id matching two distinct outcome types receives
both, joined in sorted order. -/
theorem adopets_C9_witness :
    attach_outcome_status [c9r1, c9r2] (some "1")
      = some (String.intercalate " / "
          (groupedTypes [c9r1, c9r2] (pyStrip (as_str (some "1"))))) :=
  (adopets_C9_outcome_join [c9r1, c9r2] (some "1")).2.1 (by decide)

/-- C3: for every pair of snapshots, every identity present in the old or
the new snapshot is classified into exactly one of added, removed, or
common (changed-or-unchanged), and the added and removed id sets are
disjoint. -/
theorem adopets_C3_identity_partition
    (od nd : List (String × Record)) (pid : String) :
    ((pid ∈ idsOf od ∨ pid ∈ idsOf nd) →
      ((pid ∈ addedIds od nd ∧ pid ∉ removedIds od nd ∧ pid ∉ commonIds od nd)
        ∨ (pid ∉ addedIds od nd ∧ pid ∈ removedIds od nd ∧ pid ∉ commonIds od nd)
        ∨ (pid ∉ addedIds od nd ∧ pid ∉ removedIds od nd ∧ pid ∈ commonIds od nd)))
    ∧ ¬(pid ∈ addedIds od nd ∧ pid ∈ removedIds od nd) := by
  rw [mem_addedIds, mem_removedIds, mem_commonIds]
  by_cases ho : pid ∈ idsOf od <;> by_cases hn : pid ∈ idsOf nd <;>
    simp [ho, hn]

/-- C3 witness: the partition at a concrete pair of snapshots where id `"1"`
is common, `"2"` is removed and `"3"` is added. -/
theorem adopets_C3_witness :
    ((("3" : String) ∈ idsOf [("1", ({} : Record))] ∨ ("3" : String) ∈ idsOf [("1", ({} : Record)), ("3", ({} : Record))]) →
      ((("3" : String) ∈ addedIds [("1", ({} : Record))] [("1", ({} : Record)), ("3", ({} : Record))]
          ∧ ("3" : String) ∉ removedIds [("1", ({} : Record))] [("1", ({} : Record)), ("3", ({} : Record))]
          ∧ ("3" : String) ∉ commonIds [("1", ({} : Record))] [("1", ({} : Record)), ("3", ({} : Record))])
        ∨ (("3" : String) ∉ addedIds [("1", ({} : Record))] [("1", ({} : Record)), ("3", ({} : Record))]
          ∧ ("3" : String) ∈ removedIds [("1", ({} : Record))] [("1", ({} : Record)), ("3", ({} : Record))]
          ∧ ("3" : String) ∉ commonIds [("1", ({} : Record))] [("1", ({} : Record)), ("3", ({} : Record))])
        ∨ (("3" : String) ∉ addedIds [("1", ({} : Record))] [("1", ({} : Record)), ("3", ({} : Record))]
          ∧ ("3" : String) ∉ removedIds [("1", ({} : Record))] [("1", ({} : Record)), ("3", ({} : Record))]
          ∧ ("3" : String) ∈ commonIds [("1", ({} : Record))] [("1", ({} : Record)), ("3", ({} : Record))])))
    ∧ ¬(("3" : String) ∈ addedIds [("1", ({} : Record))] [("1", ({} : Record)), ("3", ({} : Record))]
        ∧ ("3" : String) ∈ removedIds [("1", ({} : Record))] [("1", ({} : Record)), ("3", ({} : Record))]) :=
  adopets_C3_identity_partition [("1", {})] [("1", {}), ("3", {})] "3"

/-- The `location_change_type` classifier never yields `"other"`: a detected
change with an unchanged foster flag forces the location labels to differ,
which the `kennel_move` branch catches first. -/
theorem locationChangeType_ne_other (o n : Record) :
    locationChangeType o n ≠ some "other" := by
  unfold locationChangeType locationChanged
  cases ho : o.foster <;> cases hn : n.foster <;>
    by_cases hl : o.location = n.location <;>
      simp [ho, hn, hl]

theorem changedEntry_location_change_type {pid : String} {o n : Record}
    {e : ChangedEntry} (h : changedEntry pid o n = some e) :
    e.location_change_type = locationChangeType o n := by
  unfold changedEntry at h
  dsimp only at h
  split at h
  · cases h; rfl
  · cases h

/-- C10: every entry of `animals_changed` carries a `location_change_type`
that is not the fallback `"other"` (it is `None` or one of the three named
transitions). -/
theorem adopets_C10_no_other
    (od nd : List (String × Record)) (e : ChangedEntry)
    (h : e ∈ animalsChangedOf od nd) :
    e.location_change_type ≠ some "other" := by
  unfold animalsChangedOf at h
  rw [List.mem_filterMap] at h
  obtain ⟨pid, _, hsome⟩ := h
  rw [changedEntry_location_change_type hsome]
  exact locationChangeType_ne_other _ _

def c10old : Record :=
  { animal_id := some "1", location := some "Kennel 1" }

def c10new : Record :=
  { animal_id := some "1", location := some "Kennel 2" }

def c10entry : ChangedEntry :=
  ((animalsChangedOf [("1", c10old)] [("1", c10new)]).head?).getD
    ⟨"", none, none, none, none, none, none, none, none, none, none, none,
     false, false, false, none, [], [], false, none, none⟩

/-- C10 witness: the classifier output on a concrete kennel move is not
`"other"`. -/
theorem adopets_C10_witness :
    c10entry.location_change_type ≠ some "other" :=
  adopets_C10_no_other [("1", c10old)] [("1", c10new)] c10entry (by decide)

end Adopets
